import Mathlib

/-
Verification of the lurk result/logging library (result.h + lurk.c) against
its specification.

Shallow embedding notes:
  * `result_t` is a C `int`; result values are modelled as `Int`.
  * C pointers that may be NULL are modelled as `Option`; the process-wide
    `static const result_config_t* result_config` pointer is an
    `Option result_config` value threaded explicitly.
  * The two output streams (stdout, stderr) are modelled as a `Streams`
    record of append-only `String` buffers.
  * Wall-clock time (`get_time`, a `struct tm`) is nondeterministic input;
    it is modelled as an explicit `Tm` parameter.
  * printf-style formatting of `fmt` with a `va_list` is outside the
    embedding: the formatted message is modelled as the format string
    itself (the claims under verification do not depend on `%` expansion).
  * C function pointers stored in the configuration are modelled by the
    inductive types `LogFnPtr` / `ErrFnPtr`: either the address of the
    default reporter or an arbitrary custom handler acting on the streams.
  * The struct fields `prefix` / `postfix` are Lean keywords, so they are
    named `prefix_str` / `postfix_str` here.
-/

namespace Lurk

/- enum result (result.h). RESULT_TRUE / RESULT_FALSE alias C true / false. -/

def RESULT_INVALID_OBJECT : Int := -2
def RESULT_INTERNAL_ERROR : Int := -3
def RESULT_BAD_PARAM : Int := -1
def RESULT_SUCCESS : Int := 0
def RESULT_FAILURE : Int := 1
def RESULT_DONE : Int := 2
def RESULT_VALID_OBJECT : Int := RESULT_SUCCESS
def RESULT_TRUE : Int := 1
def RESULT_FALSE : Int := 0

/- Output streams: stdout and stderr, as append-only buffers. -/

structure Streams where
  out : String
  err : String
deriving DecidableEq, Repr

/- Wall-clock time fields used by the reporters (struct tm). -/

structure Tm where
  tm_hour : Nat
  tm_min : Nat
  tm_sec : Nat
deriving DecidableEq, Repr

/- Handler function types (result.h): result_log_fn / result_err_fn are
void-returning; their only effect in the embedding is on the streams. -/

def result_log_fn : Type := Int → String → Streams → Streams

def result_err_fn : Type := Int → Option String → Option String → String → Streams → Streams

/- A C function pointer of log-handler type: either &log_default or a
custom handler supplied by the client. -/

inductive LogFnPtr : Type where
  | log_default_ptr : LogFnPtr
  | custom : result_log_fn → LogFnPtr

inductive ErrFnPtr : Type where
  | err_default_ptr : ErrFnPtr
  | custom : result_err_fn → ErrFnPtr

/- struct result_config (result.h). -/

structure result_config where
  projname : Option String
  prefix_str : Option String
  postfix_str : Option String
  do_log : Bool
  do_err : Bool
  log_fn : Option LogFnPtr
  err_fn : Option ErrFnPtr

/- static const result_config_t result_config_default (lurk.c). -/

def result_config_default : result_config :=
  { projname := some "lurk"
    prefix_str := some ""
    postfix_str := some "\n"
    do_log := true
    do_err := true
    log_fn := some LogFnPtr.log_default_ptr
    err_fn := some ErrFnPtr.err_default_ptr }

/- Configuration resolution (lurk.c get_config_*). `rc` is the value of the
process-wide `result_config` pointer (none = NULL). -/

def get_config_projname (rc : Option result_config) : Option String :=
  match rc with
  | none => result_config_default.projname
  | some cfg =>
    match cfg.projname with
    | none => result_config_default.projname
    | some projname => some projname

def get_config_prefix_str (rc : Option result_config) : Option String :=
  match rc with
  | none => result_config_default.prefix_str
  | some cfg =>
    match cfg.prefix_str with
    | none => result_config_default.prefix_str
    | some s => some s

def get_config_postfix_str (rc : Option result_config) : Option String :=
  match rc with
  | none => result_config_default.postfix_str
  | some cfg =>
    match cfg.postfix_str with
    | none => result_config_default.postfix_str
    | some s => some s

def get_config_do_log (rc : Option result_config) : Bool :=
  match rc with
  | none => result_config_default.do_log
  | some cfg => cfg.do_log

def get_config_do_err (rc : Option result_config) : Bool :=
  match rc with
  | none => result_config_default.do_err
  | some cfg => cfg.do_err

def get_config_log_fn (rc : Option result_config) : Option LogFnPtr :=
  match rc with
  | none => result_config_default.log_fn
  | some cfg =>
    match cfg.log_fn with
    | none => result_config_default.log_fn
    | some log_fn => some log_fn

def get_config_err_fn (rc : Option result_config) : Option ErrFnPtr :=
  match rc with
  | none => result_config_default.err_fn
  | some cfg =>
    match cfg.err_fn with
    | none => result_config_default.err_fn
    | some err_fn => some err_fn

/- Classification predicates (lurk.c). -/

def is_success (result : Int) : Bool :=
  if result = RESULT_SUCCESS then true else false

def is_failure (result : Int) : Bool :=
  if result = RESULT_FAILURE then true else false

def is_valid_object (result : Int) : Bool :=
  if result = RESULT_VALID_OBJECT then true else false

def is_error (result : Int) : Bool :=
  decide (result < 0)

def is_lurk_err (result : Int) : Bool :=
  if result = RESULT_INVALID_OBJECT then true
  else if result = RESULT_INTERNAL_ERROR then true
  else if result = RESULT_BAD_PARAM then true
  else false

def is_true (result : Int) : Bool :=
  if result = RESULT_TRUE then true else false

def is_false (result : Int) : Bool :=
  if result = RESULT_FALSE then true else false

/- printf field formatting used by the default reporters. -/

/-- Left-pad a string with zeros to width `w` (printf zero-padded minimum
field width). -/
def zeroPad (w : Nat) (s : String) : String :=
  String.mk (List.replicate (w - s.length) '0') ++ s

/-- `%02d` on a nonnegative value. -/
def fmt_02d (n : Nat) : String :=
  zeroPad 2 (toString n)

/-- `%08x` on a C `int`: the value converted to unsigned 32-bit, printed in
lowercase hex, zero-padded to 8 digits. -/
def fmt_hex8 (result : Int) : String :=
  zeroPad 8 (String.mk (Nat.toDigits 16 (result.emod (2 ^ 32)).toNat))

/-- The `%02d:%02d:%02d` time field. -/
def fmt_time (t : Tm) : String :=
  fmt_02d t.tm_hour ++ ":" ++ fmt_02d t.tm_min ++ ":" ++ fmt_02d t.tm_sec

/- Default reporters (lurk.c). Each reads the process-wide configuration
pointer `rc` and the current time `t`, and appends to one stream. The
`.getD ""` on the resolved text fields is dead code: resolution always
returns `some` because every field of `result_config_default` is `some`. -/

/-- log_default (lurk.c): one write to stdout of
`HH:MM:SS  %08x  [projname]  prefix`, then the formatted message, then the
postfix. -/
def log_default (rc : Option result_config) (t : Tm) (result : Int)
    (fmt : Option String) (s : Streams) : Streams :=
  match fmt with
  | none => s
  | some msg =>
    if !get_config_do_log rc then s
    else
      let projname := (get_config_projname rc).getD ""
      let pre := (get_config_prefix_str rc).getD ""
      let post := (get_config_postfix_str rc).getD ""
      { s with out := s.out ++ fmt_time t ++ "  " ++ fmt_hex8 result ++ "  ["
                      ++ projname ++ "]  " ++ pre ++ msg ++ post }

/-- err_default (lurk.c): substitutes placeholders for NULL caller/loc, then
one write to stderr of `HH:MM:SS  %08x  [projname:caller.loc]  prefix`, the
formatted message, and the postfix. -/
def err_default (rc : Option result_config) (t : Tm) (result : Int)
    (caller loc : Option String) (fmt : Option String) (s : Streams) : Streams :=
  match fmt with
  | none => s
  | some msg =>
    if !get_config_do_err rc then s
    else
      let caller := caller.getD "(unknown)"
      let loc := loc.getD "???"
      let projname := (get_config_projname rc).getD ""
      let pre := (get_config_prefix_str rc).getD ""
      let post := (get_config_postfix_str rc).getD ""
      { s with err := s.err ++ fmt_time t ++ "  " ++ fmt_hex8 result ++ "  ["
                      ++ projname ++ ":" ++ caller ++ "." ++ loc ++ "]  "
                      ++ pre ++ msg ++ post }

/- Invoking a resolved handler pointer. `(*log_fn)(result, fmt, args)`:
the default pointer runs the default reporter (which reads the globals);
a custom pointer runs the client handler on the streams. Resolution never
yields `none`; that branch is unreachable. -/

def call_log_fn (rc : Option result_config) (t : Tm) (p : Option LogFnPtr)
    (result : Int) (fmt : String) (s : Streams) : Streams :=
  match p with
  | none => s
  | some LogFnPtr.log_default_ptr => log_default rc t result (some fmt) s
  | some (LogFnPtr.custom f) => f result fmt s

def call_err_fn (rc : Option result_config) (t : Tm) (p : Option ErrFnPtr)
    (result : Int) (caller loc : Option String) (fmt : String) (s : Streams) : Streams :=
  match p with
  | none => s
  | some ErrFnPtr.err_default_ptr => err_default rc t result caller loc (some fmt) s
  | some (ErrFnPtr.custom f) => f result caller loc fmt s

/- Dispatch entry points (lurk.c). Each returns the result value and the
updated streams; the configuration pointer is read, never written. -/

/-- lurk_log (lurk.c). -/
def lurk_log (rc : Option result_config) (t : Tm) (result : Int)
    (fmt : Option String) (s : Streams) : Int × Streams :=
  match fmt with
  | none => (result, s)
  | some msg =>
    if !get_config_do_log rc then (result, s)
    else (result, call_log_fn rc t (get_config_log_fn rc) result msg s)

/-- lurk_err (lurk.c). -/
def lurk_err (rc : Option result_config) (t : Tm) (result : Int)
    (caller loc : Option String) (fmt : Option String) (s : Streams) : Int × Streams :=
  match fmt with
  | none => (result, s)
  | some msg =>
    if !get_config_do_err rc then (result, s)
    else (result, call_err_fn rc t (get_config_err_fn rc) result caller loc msg s)

/-- lurk_set_result_config (lurk.c): store the pointer, return success.
The returned pair is the result value and the new value of the
process-wide configuration pointer. -/
def lurk_set_result_config (config : Option result_config) : Int × Option result_config :=
  (RESULT_SUCCESS, config)

/-- Expansion of `LURK_LINE_STRING` at the `RETURN_BAD_PARAM_NULL(config)`
use inside lurk_get_defaults (lurk.c). -/
def lurk_get_defaults_line : String := "133"

/-- lurk_get_defaults (lurk.c): `dst` models the pointed-to destination
(none = NULL pointer). On NULL it returns
`RETURN_BAD_PARAM_NULL(config)`, which expands to a lurk_err call reporting
`RESULT_BAD_PARAM`; otherwise it copies the default record into the
destination. Returns (result value, destination contents, streams). -/
def lurk_get_defaults (rc : Option result_config) (t : Tm)
    (dst : Option result_config) (s : Streams) : Int × Option result_config × Streams :=
  match dst with
  | none =>
    let p := lurk_err rc t RESULT_BAD_PARAM (some "lurk_get_defaults")
        (some lurk_get_defaults_line)
        (some "Bad parameter [config]. Must not be [NULL]") s
    (p.1, none, p.2)
  | some _ => (RESULT_SUCCESS, some result_config_default, s)

/- Whole-process state: the configuration pointer plus the streams. The
stateful wrappers below are the operations as acting on this state; the
configuration component changes only where the C code assigns to the
`result_config` global. -/

structure ProcState where
  result_config : Option result_config
  streams : Streams

def lurk_log_st (st : ProcState) (t : Tm) (result : Int)
    (fmt : Option String) : Int × ProcState :=
  let p := lurk_log st.result_config t result fmt st.streams
  (p.1, { st with streams := p.2 })

def lurk_err_st (st : ProcState) (t : Tm) (result : Int)
    (caller loc : Option String) (fmt : Option String) : Int × ProcState :=
  let p := lurk_err st.result_config t result caller loc fmt st.streams
  (p.1, { st with streams := p.2 })

def lurk_get_defaults_st (st : ProcState) (t : Tm)
    (dst : Option result_config) : Int × Option result_config × ProcState :=
  let p := lurk_get_defaults st.result_config t dst st.streams
  (p.1, p.2.1, { st with streams := p.2.2 })

def lurk_set_result_config_st (st : ProcState)
    (config : Option result_config) : Int × ProcState :=
  let p := lurk_set_result_config config
  (p.1, { st with result_config := p.2 })

/- Concrete inputs used by counterexamples and witnesses. `only_projname_cfg`
is the configuration a client builds with the C designated initializer
`(result_config_t){ .projname = "x" }`: all pointer fields NULL and both
flags zero-initialized to false. -/

def only_projname_cfg : result_config :=
  { projname := some "x"
    prefix_str := none
    postfix_str := none
    do_log := false
    do_err := false
    log_fn := none
    err_fn := none }

def t0 : Tm := ⟨1, 2, 3⟩

def s0 : Streams := ⟨"", ""⟩

/- Helper lemmas shared by several claim theorems. -/

theorem lurk_log_fst (rc : Option result_config) (t : Tm) (r : Int)
    (fmt : Option String) (s : Streams) : (lurk_log rc t r fmt s).1 = r := by
  rcases fmt with _ | m
  · rfl
  · simp only [lurk_log]
    split <;> rfl

theorem lurk_err_fst (rc : Option result_config) (t : Tm) (r : Int)
    (caller loc fmt : Option String) (s : Streams) :
    (lurk_err rc t r caller loc fmt s).1 = r := by
  rcases fmt with _ | m
  · rfl
  · simp only [lurk_err]
    split <;> rfl

/-- Claim C1: for every result value, every non-null format string, every
caller/location, and every active configuration (including one holding an
arbitrary custom handler), lurk_log and lurk_err return exactly the result
value they were given. -/
theorem lurk_log_err_return_pass_through (rc : Option result_config) (t : Tm)
    (r : Int) (caller loc : Option String) (m : String) (s : Streams) :
    (lurk_log rc t r (some m) s).1 = r ∧
    (lurk_err rc t r caller loc (some m) s).1 = r :=
  ⟨lurk_log_fst rc t r (some m) s, lurk_err_fst rc t r caller loc (some m) s⟩

/-- Claim C2: calling lurk_log or lurk_err with a null format string is a
no-op: the streams are unchanged and the original result value is returned
unchanged (in particular, it is not replaced by RESULT_BAD_PARAM). -/
theorem lurk_log_err_null_fmt_noop (rc : Option result_config) (t : Tm)
    (r : Int) (caller loc : Option String) (s : Streams) :
    lurk_log rc t r none s = (r, s) ∧
    lurk_err rc t r caller loc none s = (r, s) :=
  ⟨rfl, rfl⟩

/-- Claim C3, counterexample: an override with only the project-name field
set (all pointer fields NULL, flags zero-initialized) does not leave the
log-enabled flag equal to the compiled-in default: the default has do_log
true, but the resolved flag is the override value false. -/
theorem only_projname_override_flags_counterexample :
    ¬ (get_config_do_log (some only_projname_cfg) = result_config_default.do_log) := by
  decide

/-- Claim C3 as amended: per-field fallback to the default holds for the
five pointer-valued fields (projname, prefix, postfix, log handler, err
handler): an unset (null) field resolves to the default value for that
field only, a set field resolves to the override value. The two boolean
enable flags have no unset state: whenever an override is installed, they
resolve to the override value as stored, with no fallback. -/
theorem get_config_field_fallback (cfg : result_config) :
    (cfg.projname = none → get_config_projname (some cfg) = result_config_default.projname) ∧
    (∀ v, cfg.projname = some v → get_config_projname (some cfg) = some v) ∧
    (cfg.prefix_str = none → get_config_prefix_str (some cfg) = result_config_default.prefix_str) ∧
    (∀ v, cfg.prefix_str = some v → get_config_prefix_str (some cfg) = some v) ∧
    (cfg.postfix_str = none → get_config_postfix_str (some cfg) = result_config_default.postfix_str) ∧
    (∀ v, cfg.postfix_str = some v → get_config_postfix_str (some cfg) = some v) ∧
    (cfg.log_fn = none → get_config_log_fn (some cfg) = result_config_default.log_fn) ∧
    (∀ v, cfg.log_fn = some v → get_config_log_fn (some cfg) = some v) ∧
    (cfg.err_fn = none → get_config_err_fn (some cfg) = result_config_default.err_fn) ∧
    (∀ v, cfg.err_fn = some v → get_config_err_fn (some cfg) = some v) ∧
    get_config_do_log (some cfg) = cfg.do_log ∧
    get_config_do_err (some cfg) = cfg.do_err := by
  refine ⟨?_, ?_, ?_, ?_, ?_, ?_, ?_, ?_, ?_, ?_, rfl, rfl⟩
  · intro h; simp [get_config_projname, h]
  · intro v h; simp [get_config_projname, h]
  · intro h; simp [get_config_prefix_str, h]
  · intro v h; simp [get_config_prefix_str, h]
  · intro h; simp [get_config_postfix_str, h]
  · intro v h; simp [get_config_postfix_str, h]
  · intro h; simp [get_config_log_fn, h]
  · intro v h; simp [get_config_log_fn, h]
  · intro h; simp [get_config_err_fn, h]
  · intro v h; simp [get_config_err_fn, h]

/-- Claim C3, witness: instantiating the fallback theorem on the
only-projname override discharges each hypothesis concretely. -/
theorem get_config_field_fallback_witness :
    get_config_projname (some only_projname_cfg) = some "x" ∧
    get_config_prefix_str (some only_projname_cfg) = result_config_default.prefix_str ∧
    get_config_postfix_str (some only_projname_cfg) = result_config_default.postfix_str ∧
    get_config_log_fn (some only_projname_cfg) = result_config_default.log_fn ∧
    get_config_err_fn (some only_projname_cfg) = result_config_default.err_fn :=
  ⟨(get_config_field_fallback only_projname_cfg).2.1 "x" rfl,
   (get_config_field_fallback only_projname_cfg).2.2.1 rfl,
   (get_config_field_fallback only_projname_cfg).2.2.2.2.1 rfl,
   (get_config_field_fallback only_projname_cfg).2.2.2.2.2.2.1 rfl,
   (get_config_field_fallback only_projname_cfg).2.2.2.2.2.2.2.2.1 rfl⟩

/-- Claim C4, counterexample: with the default configuration, calling
lurk_get_defaults with a NULL destination returns RESULT_BAD_PARAM but does
produce output: the RETURN_BAD_PARAM_NULL macro reports through lurk_err,
so the stderr stream changes. -/
theorem lurk_get_defaults_null_writes_stderr_counterexample :
    (lurk_get_defaults none t0 none s0).1 = RESULT_BAD_PARAM ∧
    ¬ ((lurk_get_defaults none t0 none s0).2.2 = s0) := by
  constructor
  · rfl
  · decide

/-- Claim C4 as amended: lurk_get_defaults returns RESULT_BAD_PARAM when
the destination is NULL and leaves the destination unwritten; in that
failure case it reports through the error channel (so the streams are
unchanged only when the err channel is disabled); with a non-null
destination it writes the compiled-in defaults and returns RESULT_SUCCESS
with no output. -/
theorem lurk_get_defaults_spec (rc : Option result_config) (t : Tm)
    (s : Streams) (c : result_config)
    (h : get_config_do_err rc = false) :
    (lurk_get_defaults rc t none s).1 = RESULT_BAD_PARAM ∧
    (lurk_get_defaults rc t none s).2.1 = none ∧
    (lurk_get_defaults rc t none s).2.2 = s ∧
    lurk_get_defaults rc t (some c) s = (RESULT_SUCCESS, some result_config_default, s) := by
  refine ⟨?_, rfl, ?_, rfl⟩
  · unfold lurk_get_defaults
    exact lurk_err_fst rc t RESULT_BAD_PARAM (some "lurk_get_defaults")
      (some lurk_get_defaults_line)
      (some "Bad parameter [config]. Must not be [NULL]") s
  · simp [lurk_get_defaults, lurk_err, h]

/-- Claim C4, witness: instantiating the amended theorem on a configuration
with the err channel disabled. -/
theorem lurk_get_defaults_spec_witness :
    (lurk_get_defaults (some only_projname_cfg) t0 none s0).1 = RESULT_BAD_PARAM ∧
    (lurk_get_defaults (some only_projname_cfg) t0 none s0).2.2 = s0 :=
  ⟨(lurk_get_defaults_spec (some only_projname_cfg) t0 s0 result_config_default rfl).1,
   (lurk_get_defaults_spec (some only_projname_cfg) t0 s0 result_config_default rfl).2.2.1⟩

/-- Claim C5: lurk_set_result_config returns RESULT_SUCCESS for every
argument, and after installing NULL every resolved configuration field
equals the compiled-in default, so lurk_log and lurk_err behave exactly as
in a process where no configuration was ever installed. -/
theorem lurk_set_result_config_spec (cfg : Option result_config) (t : Tm)
    (r : Int) (caller loc fmt : Option String) (s : Streams) :
    (lurk_set_result_config cfg).1 = RESULT_SUCCESS ∧
    get_config_projname (lurk_set_result_config none).2 = result_config_default.projname ∧
    get_config_prefix_str (lurk_set_result_config none).2 = result_config_default.prefix_str ∧
    get_config_postfix_str (lurk_set_result_config none).2 = result_config_default.postfix_str ∧
    get_config_do_log (lurk_set_result_config none).2 = result_config_default.do_log ∧
    get_config_do_err (lurk_set_result_config none).2 = result_config_default.do_err ∧
    get_config_log_fn (lurk_set_result_config none).2 = result_config_default.log_fn ∧
    get_config_err_fn (lurk_set_result_config none).2 = result_config_default.err_fn ∧
    lurk_log (lurk_set_result_config none).2 t r fmt s = lurk_log none t r fmt s ∧
    lurk_err (lurk_set_result_config none).2 t r caller loc fmt s =
      lurk_err none t r caller loc fmt s :=
  ⟨rfl, rfl, rfl, rfl, rfl, rfl, rfl, rfl, rfl, rfl⟩

/-- Claim C6: when the log channel is enabled and the resolved handler is
the default reporter, lurk_log appends to stdout exactly the line
consisting of zero-padded HH:MM:SS, two spaces, the result as 8 zero-padded
hex digits, two spaces, the resolved project name in brackets, two spaces,
the resolved prefix, the message, and the resolved postfix, with no other
separators, and leaves stderr untouched. -/
theorem default_log_reporter_line (rc : Option result_config) (t : Tm)
    (r : Int) (m : String) (s : Streams)
    (hlog : get_config_do_log rc = true)
    (hfn : get_config_log_fn rc = some LogFnPtr.log_default_ptr) :
    (lurk_log rc t r (some m) s).2 =
      { out := s.out ++ fmt_time t ++ "  " ++ fmt_hex8 r ++ "  " ++ "["
               ++ (get_config_projname rc).getD "" ++ "]" ++ "  "
               ++ (get_config_prefix_str rc).getD "" ++ m
               ++ (get_config_postfix_str rc).getD "",
        err := s.err } := by
  simp only [lurk_log, hlog, Bool.not_true, Bool.false_eq_true, if_false, hfn,
    call_log_fn, log_default]
  refine congrArg (fun o => Streams.mk o s.err) ?_
  apply String.ext
  simp only [String.data_append, List.append_assoc]
  rfl

/-- Claim C6, witness: the default configuration at a concrete time,
result, and message. -/
theorem default_log_reporter_line_witness :
    (lurk_log none t0 1 (some "queue empty") s0).2 =
      { out := s0.out ++ fmt_time t0 ++ "  " ++ fmt_hex8 1 ++ "  " ++ "["
               ++ (get_config_projname none).getD "" ++ "]" ++ "  "
               ++ (get_config_prefix_str none).getD "" ++ "queue empty"
               ++ (get_config_postfix_str none).getD "",
        err := s0.err } :=
  default_log_reporter_line none t0 1 "queue empty" s0 rfl rfl

/-- Claim C7: is_lurk_err is true exactly on the three named error values
RESULT_INVALID_OBJECT = -2, RESULT_INTERNAL_ERROR = -3 and
RESULT_BAD_PARAM = -1, and false on every other integer. -/
theorem is_lurk_err_iff (r : Int) :
    is_lurk_err r = true ↔ (r = -2 ∨ r = -3 ∨ r = -1) := by
  unfold is_lurk_err RESULT_INVALID_OBJECT RESULT_INTERNAL_ERROR RESULT_BAD_PARAM
  by_cases h1 : r = -2 <;> by_cases h2 : r = -3 <;> by_cases h3 : r = -1 <;>
    simp [h1, h2, h3]

/-- Claim C8: when the err channel is enabled, the default error reporter
writes its line to stderr with the [project:caller.location] tag, where a
null caller is replaced by the placeholder "(unknown)" and a null location
by the placeholder "???"; stdout is untouched. -/
theorem err_default_placeholders (rc : Option result_config) (t : Tm)
    (r : Int) (caller loc : Option String) (m : String) (s : Streams)
    (herr : get_config_do_err rc = true) :
    err_default rc t r caller loc (some m) s =
      { out := s.out,
        err := s.err ++ fmt_time t ++ "  " ++ fmt_hex8 r ++ "  " ++ "["
               ++ (get_config_projname rc).getD "" ++ ":"
               ++ caller.getD "(unknown)" ++ "." ++ loc.getD "???" ++ "]" ++ "  "
               ++ (get_config_prefix_str rc).getD "" ++ m
               ++ (get_config_postfix_str rc).getD "" } := by
  simp only [err_default, herr, Bool.not_true, Bool.false_eq_true, if_false]
  refine congrArg (Streams.mk s.out) ?_
  apply String.ext
  simp only [String.data_append, List.append_assoc]
  rfl

/-- Claim C8, witness: null caller and null location at concrete inputs
yield the two placeholders. -/
theorem err_default_placeholders_witness :
    err_default none t0 RESULT_BAD_PARAM none none (some "bad arg") s0 =
      { out := s0.out,
        err := s0.err ++ fmt_time t0 ++ "  " ++ fmt_hex8 RESULT_BAD_PARAM ++ "  " ++ "["
               ++ (get_config_projname none).getD "" ++ ":"
               ++ "(unknown)" ++ "." ++ "???" ++ "]" ++ "  "
               ++ (get_config_prefix_str none).getD "" ++ "bad arg"
               ++ (get_config_postfix_str none).getD "" } :=
  err_default_placeholders none t0 RESULT_BAD_PARAM none none "bad arg" s0 rfl

/-- Claim C9: because of the numeric collisions in enum result
(RESULT_FALSE = RESULT_SUCCESS = RESULT_VALID_OBJECT = 0 and
RESULT_TRUE = RESULT_FAILURE = 1), the classification predicates coincide
extensionally. -/
theorem predicate_numeric_collisions (r : Int) :
    is_false r = is_success r ∧ is_success r = is_valid_object r ∧
    is_true r = is_failure r :=
  ⟨rfl, rfl, rfl⟩

/-- Claim C10: lurk_log, lurk_err (including the default reporters they
dispatch to) and lurk_get_defaults leave the process-wide configuration
pointer unchanged on every path; lurk_set_result_config is the operation
that replaces it, with the pointer it is given. -/
theorem config_pointer_frame (st : ProcState) (t : Tm) (r : Int)
    (caller loc fmt : Option String) (dst cfg : Option result_config) :
    (lurk_log_st st t r fmt).2.result_config = st.result_config ∧
    (lurk_err_st st t r caller loc fmt).2.result_config = st.result_config ∧
    (lurk_get_defaults_st st t dst).2.2.result_config = st.result_config ∧
    (lurk_set_result_config_st st cfg).2.result_config = cfg :=
  ⟨rfl, rfl, rfl, rfl⟩

end Lurk
